import Mathlib

/-
Verification of the A2A Agent Inspector service layer
(backend/src/a2a_inspector/services.py).

The service is embedded shallowly:
  * Python dict/list/str/int/bool/None values become the inductive `JValue`
    with Python truthiness as `truthy`.
  * `validate_url` becomes a pure function over a pre-parsed URL record
    (`UrlInput`, the outcome of urlparse) and a DNS oracle
    (`DnsResult`, the outcome of socket.getaddrinfo, with the caught
    exception classes as explicit constructors).
  * IP addresses are `IpAddr` (IPv4 and IPv6 as numeric values) and the
    module constant BLOCKED_IP_RANGES is the list of network prefixes from
    the source; membership follows ipaddress, where a version mismatch is
    simply False.
  * The async network operations of `load_agent_card` and `send_message`
    (card resolution, unary reply, streaming reply sequence) are oracles in
    an explicit `Transport` record; a raised exception is the `Except.error`
    case carrying str(e), caught by the try/except of the source.
  * The uniform result dict becomes the `Envelope` record.
-/

namespace A2AInspector

/-- JSON-like runtime values of the Python service: None, bool, int, str,
list and dict (a dict is a key-ordered association list, keys unique). -/
inductive JValue where
  | null : JValue
  | bool : Bool → JValue
  | num : Int → JValue
  | str : String → JValue
  | arr : List JValue → JValue
  | obj : List (String × JValue) → JValue

/-- Python truthiness of a `JValue`: None, False, 0, empty string, empty
list and empty dict are falsy, everything else is truthy. -/
def truthy : JValue → Bool
  | .null => false
  | .bool b => b
  | .num n => n != 0
  | .str s => s != ""
  | .arr xs => !xs.isEmpty
  | .obj fs => !fs.isEmpty

/-- Dict lookup: `d.get(key)` as an Option (none when the key is absent). -/
def jlookup (fs : List (String × JValue)) (key : String) : Option JValue :=
  (fs.find? (fun p => p.fst == key)).map (fun p => p.snd)

/-- Truthiness of `d.get(key)`: a missing key yields None, which is falsy. -/
def getTruthy (fs : List (String × JValue)) (key : String) : Bool :=
  match jlookup fs key with
  | some v => truthy v
  | none => false

/-- An IP address as returned by resolution: IPv4 or IPv6, numerically. -/
inductive IpAddr where
  | v4 : Nat → IpAddr
  | v6 : Nat → IpAddr
deriving DecidableEq

/-- A network prefix as built by ipaddress.ip_network: address family,
numeric network address, prefix length. -/
structure IpNetwork where
  v6net : Bool
  base : Nat
  prefixLen : Nat

/-- Membership test `ip in network` of the ipaddress module: False when the
versions differ, otherwise equality of the two addresses shifted down to
the prefix (division by 2 to the number of host bits). -/
def IpNetwork.contains (n : IpNetwork) (ip : IpAddr) : Bool :=
  match ip with
  | .v4 a => !n.v6net && (a / 2 ^ (32 - n.prefixLen) == n.base / 2 ^ (32 - n.prefixLen))
  | .v6 a => n.v6net && (a / 2 ^ (128 - n.prefixLen) == n.base / 2 ^ (128 - n.prefixLen))

/-- Numeric value of a dotted-quad IPv4 address. -/
def ipv4 (a b c d : Nat) : Nat := ((a * 256 + b) * 256 + c) * 256 + d

/-- The fixed SSRF block list of services.py: loopback, RFC1918 private
ranges, link-local and cloud metadata, current network, multicast,
reserved, and the IPv6 loopback, private and link-local equivalents. -/
def BLOCKED_IP_RANGES : List IpNetwork :=
  [⟨false, ipv4 127 0 0 0, 8⟩,
   ⟨false, ipv4 10 0 0 0, 8⟩,
   ⟨false, ipv4 172 16 0 0, 12⟩,
   ⟨false, ipv4 192 168 0 0, 16⟩,
   ⟨false, ipv4 169 254 0 0, 16⟩,
   ⟨false, ipv4 0 0 0 0, 8⟩,
   ⟨false, ipv4 224 0 0 0, 4⟩,
   ⟨false, ipv4 240 0 0 0, 4⟩,
   ⟨true, 1, 128⟩,
   ⟨true, 0xfc00 * 2 ^ 112, 7⟩,
   ⟨true, 0xfe80 * 2 ^ 112, 10⟩]

/-- An address is blocked when it falls inside any range of the block list. -/
def isBlocked (ip : IpAddr) : Bool :=
  BLOCKED_IP_RANGES.any (fun n => n.contains ip)

/-- The urlparse outcome used by validate_url: the scheme and the optional
hostname component (urlparse yields hostname None when absent). -/
structure ParsedUrl where
  scheme : String
  hostname : Option String

/-- The raw URL string together with its parse outcome; `parsed = none`
is the (caught) case of urlparse raising. -/
structure UrlInput where
  raw : String
  parsed : Option ParsedUrl

/-- Outcome of socket.getaddrinfo on a hostname: a list of resolved
addresses (a `none` entry is an address string that ipaddress.ip_address
rejects with ValueError, which the source skips), a gaierror, or any
other exception (caught by the generic handler). -/
inductive DnsResult where
  | resolved : List (Option IpAddr) → DnsResult
  | gaierror : DnsResult
  | failure : String → DnsResult

/-- ASCII model of Python str.lower, applied characterwise. -/
def lowerChar (c : Char) : Char :=
  if c.toNat ≥ 65 ∧ c.toNat ≤ 90 then Char.ofNat (c.toNat + 32) else c

/-- ASCII model of Python str.lower on a string. -/
def pyLower (s : String) : String := ⟨s.data.map lowerChar⟩

/-- The address loop of validate_url: walk the getaddrinfo entries in
order, skip entries whose address string does not parse, and return the
rejection reason at the first address inside a blocked range. -/
def checkAddrs : List (Option IpAddr) → Option String
  | [] => none
  | none :: rest => checkAddrs rest
  | some ip :: rest =>
    if isBlocked ip then some "Access to private/internal IP addresses is not allowed"
    else checkAddrs rest

/-- A2AInspectorService.validate_url: SSRF admission control. Returns
some reason when the URL is rejected, none when it is safe to contact.
The checks run in source order: empty URL, parse failure, scheme,
hostname presence, localhost aliases, DNS resolution, blocked ranges. -/
def validate_url (dns : String → DnsResult) (u : UrlInput) : Option String :=
  if u.raw = "" then some "URL is required"
  else
    match u.parsed with
    | none => some "Invalid URL format"
    | some parsed =>
      if parsed.scheme = "http" ∨ parsed.scheme = "https" then
        match parsed.hostname with
        | none => some "URL must include a hostname"
        | some h0 =>
          if h0 = "" then some "URL must include a hostname"
          else
            if pyLower h0 = "localhost" ∨ pyLower h0 = "localhost.localdomain" then
              some "Access to localhost is not allowed"
            else
              match dns (pyLower h0) with
              | .resolved addrs => checkAddrs addrs
              | .gaierror => some ("Unable to resolve hostname: " ++ pyLower h0)
              | .failure _ => some "Error validating URL"
      else some "URL must use http or https scheme"

/-- The uniform result dict of every service operation. -/
structure Envelope where
  success : Bool
  data : Option JValue := none
  error : Option String := none
  message : Option String := none
  validation : Option (List String) := none

/-- A2AInspectorService.load_agent_card: empty-URL guard, then the card
resolution round trip; any raised exception is caught and reported as a
failure envelope carrying str(e). The card dict is emitted as data. -/
def load_agent_card (resolve : Except String (List (String × JValue)))
    (agent_url : String) : Envelope :=
  if agent_url = "" then { success := false, error := some "Agent URL is required" }
  else
    match resolve with
    | .error e => { success := false, error := some e }
    | .ok cd =>
      { success := true, data := some (.obj cd),
        message := some "Agent card loaded successfully" }

/-- One required-field line of _validate_agent_card: fail when the field
is absent or falsy, pass otherwise. -/
def requiredCheck (cd : List (String × JValue)) (f : String) : String :=
  match jlookup cd f with
  | some v =>
    if truthy v then "✓ Required field \x27" ++ f ++ "\x27 is present"
    else "✗ Missing required field: " ++ f
  | none => "✗ Missing required field: " ++ f

/-- The required-field section of _validate_agent_card, in source order. -/
def requiredChecks (cd : List (String × JValue)) : List String :=
  ["name", "version", "capabilities", "url"].map (requiredCheck cd)

/-- The capabilities section of _validate_agent_card: skipped entirely
when the key is absent; a non-dict value fails; a dict passes and adds
pass/warn lines for the streaming and pushNotifications flags. -/
def capabilitiesChecks (cd : List (String × JValue)) : List String :=
  match jlookup cd "capabilities" with
  | none => []
  | some (.obj fs) =>
    ["✓ Capabilities structure is valid",
     if getTruthy fs "streaming" then "✓ Streaming capability supported"
     else "⚠ Streaming capability not supported",
     if getTruthy fs "pushNotifications" then "✓ Push notifications supported"
     else "⚠ Push notifications not supported"]
  | some _ => ["✗ Capabilities must be an object"]

/-- The skills section of _validate_agent_card: skipped when absent; a
non-list fails; an empty list warns; otherwise a pass line with the count. -/
def skillsChecks (cd : List (String × JValue)) : List String :=
  match jlookup cd "skills" with
  | none => []
  | some (.arr xs) =>
    if xs.isEmpty then ["⚠ No skills defined"]
    else ["✓ Agent has " ++ toString xs.length ++ " skills defined"]
  | some _ => ["✗ Skills must be an array"]

/-- A2AInspectorService._validate_agent_card: the report is the required,
capabilities and skills sections followed by the completion marker, and
the envelope always carries success true. -/
def validate_agent_card (cd : List (String × JValue)) : Envelope :=
  { success := true, data := some (.obj cd),
    validation := some (requiredChecks cd ++ capabilitiesChecks cd ++
      skillsChecks cd ++ ["✓ Agent card validation completed"]),
    message := some "Agent card validated successfully" }

/-- The dict fields of an envelope data value (load_agent_card always
stores a dict there on success). -/
def objFields : Option JValue → List (String × JValue)
  | some (.obj fs) => fs
  | _ => []

/-- A2AInspectorService.inspect_agent_card: load the card, validate it on
success, otherwise forward the failure envelope unchanged. -/
def inspect_agent_card (resolve : Except String (List (String × JValue)))
    (agent_url : String) : Envelope :=
  let result := load_agent_card resolve agent_url
  if result.success then validate_agent_card (objFields result.data) else result

/-- The resolved agent card as send_message sees it: an optional
capabilities object whose streaming flag is an optional bool (None and
absence are both falsy under getattr with default False). -/
structure Caps where
  streaming : Option Bool

/-- The typed card object; capabilities may be None. -/
structure Card where
  capabilities : Option Caps

/-- The streaming negotiation of send_message: capabilities present, not
None, and its streaming flag truthy. -/
def supportsStreaming (card : Card) : Bool :=
  match card.capabilities with
  | none => false
  | some c => c.streaming.getD false

/-- The protocol-client operations send_message consumes, as oracles: the
card resolution, the unary reply dump, and the streaming chunk-dump
sequence. `Except.error` is a raised exception carrying str(e); a
streaming error discards any chunks yielded before the raise, exactly as
the enclosing try/except does. -/
structure Transport where
  resolveCard : Except String Card
  unaryReply : Except String JValue
  streamChunks : Except String (List JValue)

/-- The streaming branch of send_message: the loop keeps only the dump of
the last chunk (response_data is None when no chunk arrives), and the
final `if response_data` is Python truthiness of that dump. -/
def streamingBranch (chunksRes : Except String (List JValue)) : Envelope :=
  match chunksRes with
  | .error e => { success := false, error := some e }
  | .ok chunks =>
    match chunks.getLast? with
    | some d =>
      if truthy d then
        { success := true, data := some d,
          message := some "Message sent successfully (streaming)" }
      else { success := false, error := some "No response received from streaming" }
    | none => { success := false, error := some "No response received from streaming" }

/-- The non-streaming branch of send_message: one reply, dumped and
wrapped in a success envelope; the dump is emitted as data whatever its
content (the reply document is not inspected for an error member). -/
def unaryBranch (replyRes : Except String JValue) : Envelope :=
  match replyRes with
  | .error e => { success := false, error := some e }
  | .ok d =>
    { success := true, data := some d, message := some "Message sent successfully" }

/-- A2AInspectorService.send_message: resolve the card, negotiate
streaming from its capabilities, dispatch on the chosen branch; every
raised exception is caught by the one try/except and becomes a failure
envelope carrying str(e). -/
def send_message (t : Transport) : Envelope :=
  match t.resolveCard with
  | .error e => { success := false, error := some e }
  | .ok card =>
    if supportsStreaming card then streamingBranch t.streamChunks
    else unaryBranch t.unaryReply

/-
Concrete inputs used by the witnesses and counterexamples below.
-/

/-- The end-to-end scenario card of the spec: name x, version 1.0, empty
capabilities dict, url, empty skills list. -/
def scenarioCard : List (String × JValue) :=
  [("name", .str "x"), ("version", .str "1.0"), ("capabilities", .obj []),
   ("url", .str "http://x"), ("skills", .arr [])]

/-- The validation report of the scenario card. -/
def scenarioReport : List String :=
  (validate_agent_card scenarioCard).validation.getD []

/-- The pass line the required-field loop emits for a present field. -/
def requiredPassLine (f : String) : String :=
  "✓ Required field \x27" ++ f ++ "\x27 is present"

/-- A card document with no capabilities key at all. -/
def cardNoCaps : List (String × JValue) := [("name", .str "agent")]

/-- A DNS oracle answering a public address. -/
def dnsA : String → DnsResult := fun _ => .resolved [some (.v4 (ipv4 93 184 216 34))]

/-- A DNS oracle that fails to resolve anything. -/
def dnsB : String → DnsResult := fun _ => .gaierror

/-- The empty URL input. -/
def uEmpty : UrlInput := { raw := "", parsed := none }

/-- A URL with an unsupported scheme. -/
def uFtp : UrlInput :=
  { raw := "ftp://files.test/x", parsed := some { scheme := "ftp", hostname := some "files.test" } }

/-- A DNS oracle resolving to a single private IPv4 address. -/
def dnsBlocked : String → DnsResult := fun _ => .resolved [some (.v4 (ipv4 10 0 0 5))]

/-- A well-formed http URL whose hostname is not a localhost alias. -/
def uExample : UrlInput :=
  { raw := "http://internal.test/",
    parsed := some { scheme := "http", hostname := some "internal.test" } }

/-- A transport whose card resolution raises. -/
def tResolveFail : Transport :=
  { resolveCard := .error "boom", unaryReply := .ok .null, streamChunks := .ok [] }

/-- A card that advertises streaming false. -/
def cardNoStreaming : Card := { capabilities := some { streaming := some false } }

/-- A unary transport for the negotiation witness. -/
def tUnary : Transport :=
  { resolveCard := .ok cardNoStreaming,
    unaryReply := .ok (.obj [("jsonrpc", .str "2.0")]),
    streamChunks := .ok [] }

/-- A card that advertises streaming true. -/
def cardStreaming : Card := { capabilities := some { streaming := some true } }

/-- An intermediate chunk dump. -/
def chunkA : JValue := .obj [("kind", .str "partial")]

/-- A terminal chunk dump. -/
def chunkB : JValue := .obj [("kind", .str "final")]

/-- A streaming transport whose sequence yields nothing. -/
def tStreamEmpty : Transport :=
  { resolveCard := .ok cardStreaming, unaryReply := .ok .null, streamChunks := .ok [] }

/-- A streaming transport whose sequence yields two chunks. -/
def tStreamTwo : Transport :=
  { resolveCard := .ok cardStreaming, unaryReply := .ok .null,
    streamChunks := .ok [chunkA, chunkB] }

/-- A unary reply document that is an explicit protocol-level error
object: a JSON-RPC reply carrying an error member instead of a result. -/
def errorReplyDoc : JValue :=
  .obj [("jsonrpc", .str "2.0"), ("id", .str "1"),
        ("error", .obj [("code", .num (-32601)), ("message", .str "Method not found")])]

/-- A card without capabilities, forcing the unary branch. -/
def cardUnary : Card := { capabilities := none }

/-- A transport whose unary reply is the explicit error object: the
client returns it as a value, nothing is raised. -/
def tProtocolError : Transport :=
  { resolveCard := .ok cardUnary, unaryReply := .ok errorReplyDoc, streamChunks := .ok [] }

end A2AInspector

/-
Helper lemmas shared by the claim theorems.
-/

namespace A2AInspector

/-- The address loop either accepts or returns the fixed rejection reason. -/
theorem checkAddrs_none_or_blocked (addrs : List (Option IpAddr)) :
    checkAddrs addrs = none ∨
      checkAddrs addrs = some "Access to private/internal IP addresses is not allowed" := by
  induction addrs with
  | nil => exact Or.inl rfl
  | cons a rest ih =>
    cases a with
    | none => simpa [checkAddrs] using ih
    | some ip =>
      by_cases hb : isBlocked ip
      · exact Or.inr (by simp [checkAddrs, hb])
      · simpa [checkAddrs, hb] using ih

/-- The address loop rejects exactly when some parsed entry is blocked. -/
theorem checkAddrs_blocked_iff (addrs : List (Option IpAddr)) :
    checkAddrs addrs = some "Access to private/internal IP addresses is not allowed" ↔
      ∃ ip, some ip ∈ addrs ∧ isBlocked ip = true := by
  induction addrs with
  | nil => simp [checkAddrs]
  | cons a rest ih =>
    cases a with
    | none =>
      rw [show checkAddrs (none :: rest) = checkAddrs rest from rfl, ih]
      constructor
      · rintro ⟨ip2, hm, hbl⟩; exact ⟨ip2, List.mem_cons_of_mem _ hm, hbl⟩
      · rintro ⟨ip2, hm, hbl⟩
        rcases List.mem_cons.mp hm with h | h
        · exact absurd h (by simp)
        · exact ⟨ip2, h, hbl⟩
    | some ip =>
      simp only [checkAddrs]
      by_cases hb : isBlocked ip
      · rw [if_pos hb]
        constructor
        · intro _; exact ⟨ip, List.mem_cons_self _ _, hb⟩
        · intro _; rfl
      · rw [if_neg hb, ih]
        constructor
        · rintro ⟨ip2, hm, hbl⟩; exact ⟨ip2, List.mem_cons_of_mem _ hm, hbl⟩
        · rintro ⟨ip2, hm, hbl⟩
          rcases List.mem_cons.mp hm with h | h
          · cases Option.some.inj h; exact absurd hbl (by simpa using hb)
          · exact ⟨ip2, h, hbl⟩

/-- The reason returned on a resolution failure is never empty. -/
theorem unresolved_reason_ne_empty (h : String) :
    "Unable to resolve hostname: " ++ h ≠ "" := by
  intro heq
  have hl := congrArg String.length heq
  rw [String.length_append] at hl
  have h28 : ("Unable to resolve hostname: ").length = 28 := rfl
  have h0 : ("" : String).length = 0 := rfl
  rw [h28, h0] at hl
  omega

/-
Claim theorems.
-/

/-- Claim C1: when a URL passes every syntactic check and its hostname
resolves, validate_url returns the non-empty reason Access to
private/internal IP addresses is not allowed exactly when some resolved
address, of either family and at any position in the resolution list,
falls inside a blocked range: admission fails if any resolved address is
blocked, not just the first. -/
theorem blocked_address_rejected
    (dns : String → DnsResult) (u : UrlInput) (p : ParsedUrl) (h0 : String)
    (addrs : List (Option IpAddr))
    (hraw : u.raw ≠ "") (hp : u.parsed = some p)
    (hs : p.scheme = "http" ∨ p.scheme = "https")
    (hh : p.hostname = some h0) (hne : h0 ≠ "")
    (hloc : ¬(pyLower h0 = "localhost" ∨ pyLower h0 = "localhost.localdomain"))
    (hdns : dns (pyLower h0) = .resolved addrs) :
    ((validate_url dns u = some "Access to private/internal IP addresses is not allowed") ↔
      ∃ ip, some ip ∈ addrs ∧ isBlocked ip = true) ∧
    "Access to private/internal IP addresses is not allowed" ≠ "" := by
  have hv : validate_url dns u = checkAddrs addrs := by
    simp [validate_url, hraw, hp, hs, hh, hne, hloc, hdns]
  exact ⟨by rw [hv]; exact checkAddrs_blocked_iff addrs, by decide⟩

/-- Claim C1 witness: a URL whose hostname resolves to the private
address 10.0.0.5 is rejected with the blocked-address reason. -/
theorem blocked_address_rejected_witness :
    validate_url dnsBlocked uExample =
      some "Access to private/internal IP addresses is not allowed" := by
  have h := blocked_address_rejected dnsBlocked uExample
    { scheme := "http", hostname := some "internal.test" } "internal.test"
    [some (.v4 (ipv4 10 0 0 5))]
    (by decide) rfl (Or.inl rfl) rfl (by decide) (by decide) rfl
  exact h.1.mpr ⟨.v4 (ipv4 10 0 0 5), by simp, by decide⟩

/-- Claim C2 counterexample: a send_message call whose underlying unary
reply is an explicit protocol-level error object, returned as a value by
the client rather than raised, yields a success true envelope with no
error field and the error document passed through as data, contradicting
the claimed success false, error stringified-error envelope. -/
theorem protocol_error_reply_not_failure :
    (send_message tProtocolError).success = true ∧
    (send_message tProtocolError).error = none ∧
    (send_message tProtocolError).data = some errorReplyDoc :=
  ⟨rfl, rfl, rfl⟩

/-- Claim C2 amended: send_message never inspects the reply document for
an error member: every unary reply the client returns as a value,
protocol-level error object or not, is wrapped in success true with the
document as data; only errors surfaced as raised exceptions become
success false envelopes, so the caller-facing envelope distinguishes
raised faults from returned documents, not protocol errors from normal
replies. -/
theorem unary_reply_envelope (t : Transport) (card : Card) (v : JValue)
    (hc : t.resolveCard = .ok card) (hs : supportsStreaming card = false)
    (hu : t.unaryReply = .ok v) :
    send_message t =
      { success := true, data := some v, message := some "Message sent successfully" } := by
  simp [send_message, hc, hs, unaryBranch, hu]

/-- Claim C2 amended witness: the pass-through envelope at the concrete
protocol-error transport. -/
theorem unary_reply_envelope_witness :
    send_message tProtocolError =
      { success := true, data := some errorReplyDoc,
        message := some "Message sent successfully" } :=
  unary_reply_envelope tProtocolError cardUnary errorReplyDoc rfl rfl rfl

/-- Claim C3 counterexample: on the scenario card the report does not
contain four required-field pass lines: the empty capabilities dict is
falsy, so the required-field loop emits a fail line for capabilities and
only three pass lines. -/
theorem scenario_card_counterexample :
    ¬ (scenarioReport.countP (fun s =>
        ["name", "version", "capabilities", "url"].any (fun f => s == requiredPassLine f)) = 4) ∧
    "✗ Missing required field: capabilities" ∈ scenarioReport := by
  constructor
  · decide
  · decide

/-- Claim C3 amended: validating the scenario card produces, in order,
pass lines for name and version, a fail line for capabilities (present
but falsy, as an empty dict), a pass line for url, a pass for the
capabilities structure, warn lines for streaming and push notifications,
a warn for empty skills, and the completion marker, inside a success
true envelope. -/
theorem scenario_card_report :
    (validate_agent_card scenarioCard).validation = some
      ["✓ Required field \x27name\x27 is present",
       "✓ Required field \x27version\x27 is present",
       "✗ Missing required field: capabilities",
       "✓ Required field \x27url\x27 is present",
       "✓ Capabilities structure is valid",
       "⚠ Streaming capability not supported",
       "⚠ Push notifications not supported",
       "⚠ No skills defined",
       "✓ Agent card validation completed"] ∧
    (validate_agent_card scenarioCard).success = true := ⟨rfl, rfl⟩

/-- Claim C4: validate_url runs its checks in the fixed source order,
short-circuiting on the first failure: empty URL, parse failure,
unsupported scheme, missing hostname, localhost alias each return their
reason given that the earlier checks passed; and for every syntactically
invalid URL or unsupported scheme the result is independent of the DNS
oracle, so no resolution is performed. -/
theorem validate_url_check_order (dns dns2 : String → DnsResult) (u : UrlInput) :
    (u.raw = "" → validate_url dns u = some "URL is required") ∧
    (u.raw ≠ "" → u.parsed = none → validate_url dns u = some "Invalid URL format") ∧
    (∀ p, u.raw ≠ "" → u.parsed = some p → ¬(p.scheme = "http" ∨ p.scheme = "https") →
      validate_url dns u = some "URL must use http or https scheme") ∧
    (∀ p, u.raw ≠ "" → u.parsed = some p → (p.scheme = "http" ∨ p.scheme = "https") →
      (p.hostname = none ∨ p.hostname = some "") →
      validate_url dns u = some "URL must include a hostname") ∧
    (∀ p h0, u.raw ≠ "" → u.parsed = some p → (p.scheme = "http" ∨ p.scheme = "https") →
      p.hostname = some h0 → h0 ≠ "" →
      (pyLower h0 = "localhost" ∨ pyLower h0 = "localhost.localdomain") →
      validate_url dns u = some "Access to localhost is not allowed") ∧
    ((u.parsed = none ∨
        ∃ p, u.parsed = some p ∧ ¬(p.scheme = "http" ∨ p.scheme = "https")) →
      validate_url dns u = validate_url dns2 u) := by
  refine ⟨?_, ?_, ?_, ?_, ?_, ?_⟩
  · intro h1; simp [validate_url, h1]
  · intro h1 hp; simp [validate_url, h1, hp]
  · intro p h1 hp h2; simp [validate_url, h1, hp, h2]
  · intro p h1 hp h2 hh
    rcases hh with hh | hh
    · simp [validate_url, h1, hp, h2, hh]
    · simp [validate_url, h1, hp, h2, hh]
  · intro p h0 h1 hp h2 hh h3 h4; simp [validate_url, h1, hp, h2, hh, h3, h4]
  · intro hcase
    by_cases h1 : u.raw = ""
    · simp [validate_url, h1]
    · rcases hcase with hp | ⟨p, hp, h2⟩
      · simp [validate_url, h1, hp]
      · simp [validate_url, h1, hp, h2]

/-- Claim C4 witness: the empty URL and an ftp URL each get their reason,
and the ftp result is the same under two different DNS oracles. -/
theorem validate_url_check_order_witness :
    validate_url dnsA uEmpty = some "URL is required" ∧
    validate_url dnsA uFtp = some "URL must use http or https scheme" ∧
    validate_url dnsA uFtp = validate_url dnsB uFtp := by
  refine ⟨(validate_url_check_order dnsA dnsA uEmpty).1 rfl, ?_, ?_⟩
  · exact (validate_url_check_order dnsA dnsA uFtp).2.2.1 _ (by decide) rfl (by decide)
  · exact (validate_url_check_order dnsA dnsB uFtp).2.2.2.2.2 (Or.inr ⟨_, rfl, by decide⟩)

/-- Claim C5: every exception raised by the protocol client inside
load_agent_card or send_message, modelled as the error outcome of the
card resolution, unary reply or streaming sequence, is caught at the
component boundary and becomes the envelope success false with the
exception text as error; the embedded operations are total, so nothing
propagates to the caller. -/
theorem transport_faults_contained (e : String) (url : String) (t : Transport) :
    (url ≠ "" →
      load_agent_card (.error e) url = { success := false, error := some e }) ∧
    (t.resolveCard = .error e →
      send_message t = { success := false, error := some e }) ∧
    (∀ card, t.resolveCard = .ok card → supportsStreaming card = true →
      t.streamChunks = .error e →
      send_message t = { success := false, error := some e }) ∧
    (∀ card, t.resolveCard = .ok card → supportsStreaming card = false →
      t.unaryReply = .error e →
      send_message t = { success := false, error := some e }) := by
  refine ⟨?_, ?_, ?_, ?_⟩
  · intro hurl; simp [load_agent_card, hurl]
  · intro h; simp [send_message, h]
  · intro card hc hs hch; simp [send_message, hc, hs, streamingBranch, hch]
  · intro card hc hs hu; simp [send_message, hc, hs, unaryBranch, hu]

/-- Claim C5 witness: a raised card resolution becomes a failure envelope
carrying the exception text. -/
theorem transport_faults_contained_witness :
    send_message tResolveFail = { success := false, error := some "boom" } :=
  (transport_faults_contained "boom" "http://agent.test" tResolveFail).2.1 rfl

/-- Claim C6: send_message takes the streaming branch exactly when the
resolved card negotiates streaming: when the streaming capability is
truthy the result is the streaming branch and is independent of the
unary oracle, when it is not the result is the unary branch and is
independent of the streaming oracle; and absent capabilities, a None or
absent streaming flag, or streaming false all negotiate to the unary
branch. -/
theorem streaming_negotiation (t : Transport) (card : Card)
    (hc : t.resolveCard = .ok card) :
    (supportsStreaming card = true →
      send_message t = streamingBranch t.streamChunks ∧
      ∀ r, send_message { t with unaryReply := r } = send_message t) ∧
    (supportsStreaming card = false →
      send_message t = unaryBranch t.unaryReply ∧
      ∀ s, send_message { t with streamChunks := s } = send_message t) ∧
    (card.capabilities = none → supportsStreaming card = false) ∧
    (∀ c, card.capabilities = some c → (c.streaming = some false ∨ c.streaming = none) →
      supportsStreaming card = false) := by
  obtain ⟨rc, ur, sc⟩ := t
  simp only at hc
  refine ⟨?_, ?_, ?_, ?_⟩
  · intro hs
    subst hc
    exact ⟨by simp [send_message, hs], fun r => by simp [send_message, hs]⟩
  · intro hs
    subst hc
    exact ⟨by simp [send_message, hs], fun s => by simp [send_message, hs]⟩
  · intro h; simp [supportsStreaming, h]
  · intro c h hst
    rcases hst with h1 | h1 <;> simp [supportsStreaming, h, h1]

/-- Claim C6 witness: against a card advertising streaming false the
result is the unary branch and the streaming capability is negotiated
off. -/
theorem streaming_negotiation_witness :
    send_message tUnary = unaryBranch tUnary.unaryReply ∧
    supportsStreaming cardNoStreaming = false := by
  have h := streaming_negotiation tUnary cardNoStreaming rfl
  exact ⟨(h.2.1 rfl).1, h.2.2.2 _ rfl (Or.inl rfl)⟩

/-- Claim C7: on the streaming path, a sequence that yields no chunk
produces the envelope success false with the present, non-empty reason
No response received from streaming; a sequence that yields at least one
chunk whose terminal dump is truthy (every dump of a typed protocol
reply is a non-empty dict) retains exactly the last chunk as data,
earlier chunks being discarded. -/
theorem streaming_terminal_chunk (t : Transport) (card : Card) (chunks : List JValue)
    (hc : t.resolveCard = .ok card) (hs : supportsStreaming card = true)
    (hch : t.streamChunks = .ok chunks) :
    (chunks = [] →
      send_message t = { success := false, error := some "No response received from streaming" } ∧
      "No response received from streaming" ≠ "") ∧
    (∀ d, chunks.getLast? = some d → truthy d = true →
      send_message t = { success := true, data := some d,
                         message := some "Message sent successfully (streaming)" }) := by
  have hv : send_message t = streamingBranch (.ok chunks) := by
    simp [send_message, hc, hs, hch]
  constructor
  · intro hnil
    subst hnil
    exact ⟨by simp [hv, streamingBranch], by decide⟩
  · intro d hd htr
    rw [hv]
    simp [streamingBranch, hd, htr]

/-- Claim C7 witness: an empty streaming sequence yields the failure
envelope; a two-chunk sequence retains only the second chunk. -/
theorem streaming_terminal_chunk_witness :
    send_message tStreamEmpty =
      { success := false, error := some "No response received from streaming" } ∧
    send_message tStreamTwo =
      { success := true, data := some chunkB,
        message := some "Message sent successfully (streaming)" } := by
  refine ⟨((streaming_terminal_chunk tStreamEmpty cardStreaming [] rfl rfl rfl).1 rfl).1, ?_⟩
  exact (streaming_terminal_chunk tStreamTwo cardStreaming [chunkA, chunkB] rfl rfl rfl).2
    chunkB rfl rfl

/-- Claim C8: the validator wraps every card document in a success true
envelope; a card with no capabilities key gets a fail line naming the
missing field while the capabilities sub-checks contribute nothing and
nothing crashes; and inspect_agent_card forwards a successfully loaded
card document unchanged into the validator. -/
theorem card_validation_always_success (cd : List (String × JValue)) :
    (validate_agent_card cd).success = true ∧
    (jlookup cd "capabilities" = none →
      "✗ Missing required field: capabilities" ∈
        (validate_agent_card cd).validation.getD [] ∧
      capabilitiesChecks cd = []) ∧
    (∀ resolve url, url ≠ "" → resolve = Except.ok cd →
      inspect_agent_card resolve url = validate_agent_card cd) := by
  refine ⟨rfl, ?_, ?_⟩
  · intro h
    constructor
    · have hreq : requiredCheck cd "capabilities" = "✗ Missing required field: capabilities" := by
        simp [requiredCheck, h]
      have : requiredCheck cd "capabilities" ∈ requiredChecks cd := by
        simp [requiredChecks]
      rw [hreq] at this
      simp [validate_agent_card]
      exact Or.inl this
    · simp [capabilitiesChecks, h]
  · intro resolve url hurl hres
    subst hres
    simp [inspect_agent_card, load_agent_card, hurl, objFields]

/-- Claim C8 witness: a card holding only a name still validates with
success true, a fail line for capabilities, and empty capabilities
sub-checks. -/
theorem card_validation_always_success_witness :
    (validate_agent_card cardNoCaps).success = true ∧
    "✗ Missing required field: capabilities" ∈
      (validate_agent_card cardNoCaps).validation.getD [] ∧
    capabilitiesChecks cardNoCaps = [] := by
  have h := card_validation_always_success cardNoCaps
  exact ⟨h.1, (h.2.1 rfl).1, (h.2.1 rfl).2⟩

/-- Claim C9: validate_url is total over its input space: for every URL
(empty, unparseable, or with a hostname whose resolution fails or
raises) it returns either acceptance or a non-empty reason string; the
parse-failure and resolution-failure constructors are mapped to reasons
rather than escaping. -/
theorem validate_url_total (dns : String → DnsResult) (u : UrlInput) :
    validate_url dns u = none ∨
      ∃ r, validate_url dns u = some r ∧ r ≠ "" := by
  by_cases h1 : u.raw = ""
  · exact Or.inr ⟨"URL is required", by simp [validate_url, h1], by decide⟩
  · cases hp : u.parsed with
    | none => exact Or.inr ⟨"Invalid URL format", by simp [validate_url, h1, hp], by decide⟩
    | some p =>
      by_cases h2 : p.scheme = "http" ∨ p.scheme = "https"
      · cases hh : p.hostname with
        | none =>
          exact Or.inr ⟨"URL must include a hostname",
            by simp [validate_url, h1, hp, h2, hh], by decide⟩
        | some h0 =>
          by_cases h3 : h0 = ""
          · exact Or.inr ⟨"URL must include a hostname",
              by simp [validate_url, h1, hp, h2, hh, h3], by decide⟩
          · by_cases h4 : pyLower h0 = "localhost" ∨ pyLower h0 = "localhost.localdomain"
            · exact Or.inr ⟨"Access to localhost is not allowed",
                by simp [validate_url, h1, hp, h2, hh, h3, h4], by decide⟩
            · have hv : validate_url dns u =
                  match dns (pyLower h0) with
                  | .resolved addrs => checkAddrs addrs
                  | .gaierror => some ("Unable to resolve hostname: " ++ pyLower h0)
                  | .failure _ => some "Error validating URL" := by
                simp [validate_url, h1, hp, h2, hh, h3, h4]
              cases hd : dns (pyLower h0) with
              | resolved addrs =>
                simp only [hd] at hv
                rcases checkAddrs_none_or_blocked addrs with hc | hc
                · exact Or.inl (hv.trans hc)
                · exact Or.inr ⟨_, hv.trans hc, by decide⟩
              | gaierror =>
                simp only [hd] at hv
                exact Or.inr ⟨_, hv, unresolved_reason_ne_empty _⟩
              | failure e =>
                simp only [hd] at hv
                exact Or.inr ⟨_, hv, by decide⟩
      · exact Or.inr ⟨"URL must use http or https scheme",
          by simp [validate_url, h1, hp, h2], by decide⟩

/-- Claim C10: for every card document the validation report is non-empty
and its last line is the completion marker, whatever pass, warn or fail
lines precede it. -/
theorem report_completion_marker (cd : List (String × JValue)) :
    ∃ v, (validate_agent_card cd).validation = some v ∧ v ≠ [] ∧
      v.getLast? = some "✓ Agent card validation completed" := by
  refine ⟨requiredChecks cd ++ capabilitiesChecks cd ++ skillsChecks cd ++
      ["✓ Agent card validation completed"], rfl, by simp, ?_⟩
  exact List.getLast?_concat _

end A2AInspector
